import Mathlib

/-!
# Scene description of the ray tracer (`scene.h`)

A shallow embedding of the declarations of `scene.h`: the `Material` record and
its constructor, the `Object` aggregate with its delegating `intersect`, and the
`Scene` container with `add_light`, `add_object`, the inline `render`
overloads and the declaration of `trace`. The methods that `scene.h` declares
without defining (`compute_intersection`, `find_an_intersection`, `trace`) are
modelled from the specification of the renderer and marked as such.

Conventions of the embedding.

* `real` (a typedef of `config.h`/`geom.h`) is taken to be `ℚ`: every operation
  that `scene.h` itself performs on a `real` is a copy or a comparison, and the
  literals `0.0`, `1.0`, `0.15` are read as the rationals `0`, `1`, `3/20`.
* C++ `int` is `Int`; `scene.h` only copies, compares and decrements it.
* A C++ reference (`const Entity &`, `const Material &`, `const Texture &`,
  `const AbstractLight *`) is a handle carrying the address of the referent.
* A defaulted C++ argument is an `Option`: `none` is the omitted argument and is
  replaced by the default written in the declaration.
* Types and functions that `scene.h` uses but that are declared in `geom.h`,
  `light.h`, `texture.h` or `images.h` are parameters of the definitions.
-/

set_option autoImplicit false

namespace Ray

/-- Modelled from the spec: the scalar type `real`, a typedef declared outside
`scene.h`, whose values the specification treats as real coefficients. It is
taken to be `ℚ`, which holds every literal of `scene.h` and keeps the
definitions executable. -/
abbrev real := ℚ

/-! ## Material -/

/-- The record `struct Material`, fields in declaration order. -/
structure Material where
  ambient : real
  diffuse : real
  specular : real
  reflectivity : Int
  reflective : real
  max_ref : Int
  refractive : real
  ior : real
  absorbance : real
  deriving DecidableEq, Repr

/-- The constructor `Material::Material` with all nine arguments supplied, in
the order of its parameter list; the member initialisers copy each parameter
into the field named after it. -/
def Material.new (ambient_ diffuse_ specular_ reflective_ refractive_ ior_
    absorbance_ : real) (reflectivity_ max_ref_ : Int) : Material :=
  { ambient := ambient_, diffuse := diffuse_, specular := specular_,
    reflectivity := reflectivity_, reflective := reflective_, max_ref := max_ref_,
    refractive := refractive_, ior := ior_, absorbance := absorbance_ }

/-- The constructor `Material::Material` with its defaulted arguments: an
omitted argument takes the default of the declaration (`0.0`, `1.0`, `0.0`,
`0.0`, `0.0`, `1.0`, `0.15`, `20`, `5`). A C++ call can only omit arguments from
the right; the calls used below do. -/
def Material.construct (ambient_ diffuse_ specular_ reflective_ refractive_ ior_
    absorbance_ : Option real) (reflectivity_ max_ref_ : Option Int) : Material :=
  Material.new (ambient_.getD 0) (diffuse_.getD 1) (specular_.getD 0)
    (reflective_.getD 0) (refractive_.getD 0) (ior_.getD 1)
    (absorbance_.getD (3 / 20)) (reflectivity_.getD 20) (max_ref_.getD 5)

/-- The call `Material ()`: every argument omitted. -/
def Material.default : Material :=
  Material.construct none none none none none none none none none

/-! ## Object -/

/-- Handle for a `const Entity &`. -/
structure EntityRef where
  addr : Nat
  deriving DecidableEq, Repr

/-- Handle for a `const Material &`. -/
structure MaterialRef where
  addr : Nat
  deriving DecidableEq, Repr

/-- Handle for a `const Texture &`. -/
structure TextureRef where
  addr : Nat
  deriving DecidableEq, Repr

/-- Handle for a `const AbstractLight *`. -/
structure LightRef where
  addr : Nat
  deriving DecidableEq, Repr

/-- The record `struct Object`. -/
structure Object where
  e : EntityRef
  m : MaterialRef
  t : TextureRef
  have_shadows : Bool
  deriving DecidableEq, Repr

/-- The constructor `Object::Object (e_, m_, t_, shadows = true)`. -/
def Object.new (e_ : EntityRef) (m_ : MaterialRef) (t_ : TextureRef)
    (shadows : Option Bool) : Object :=
  { e := e_, m := m_, t := t_, have_shadows := shadows.getD true }

/-- The virtual method `Entity::intersect (Intersection &, const Object &)` of
`geom.h`, as a table indexed by the entity: it returns the boolean result and
the updated intersection record. -/
abbrev EntityIntersect (Intersection : Type) :=
  EntityRef → Intersection → Object → Bool × Intersection

/-- The method `Object::intersect`: `return e.intersect (i, *this);`. -/
def Object.intersect {Intersection : Type} (entity : EntityIntersect Intersection)
    (self : Object) (i : Intersection) : Bool × Intersection :=
  entity self.e i self

/-! ## Scene: construction -/

/-- The data members of `class Scene`; the two `slist`s are lists whose
`push_back` appends at the end. -/
structure Scene where
  lights : List LightRef
  objects : List Object
  ambient : real
  deriving DecidableEq, Repr

/-- The constructor `Scene::Scene (real ambient_ = 0.0)`. -/
def Scene.new (ambient_ : Option real) : Scene :=
  { lights := [], objects := [], ambient := ambient_.getD 0 }

/-- The method `Scene::add_light`: `lights.push_back (&l);`. -/
def Scene.add_light (self : Scene) (l : LightRef) : Scene :=
  { self with lights := self.lights ++ [l] }

/-- The method `Scene::add_object`: `objects.push_back (Object (e, m, t));`. -/
def Scene.add_object (self : Scene) (e : EntityRef) (m : MaterialRef)
    (t : TextureRef) : Scene :=
  { self with objects := self.objects ++ [Object.new e m t none] }

/-- One call of the scene-building interface. -/
inductive BuildCall where
  | add_light (l : LightRef)
  | add_object (e : EntityRef) (m : MaterialRef) (t : TextureRef)
  deriving DecidableEq, Repr

/-- Performs one building call on a scene. -/
def Scene.call (self : Scene) : BuildCall → Scene
  | .add_light l => self.add_light l
  | .add_object e m t => self.add_object e m t

/-- Performs a sequence of building calls, first call first. -/
def Scene.build (self : Scene) (calls : List BuildCall) : Scene :=
  calls.foldl Scene.call self

/-- The lights passed to the `add_light` calls of a sequence, in call order. -/
def lightsAdded : List BuildCall → List LightRef
  | [] => []
  | .add_light l :: cs => l :: lightsAdded cs
  | .add_object _ _ _ :: cs => lightsAdded cs

/-- The (entity, material, texture) triples passed to the `add_object` calls of
a sequence, in call order. -/
def objectsAdded : List BuildCall → List (EntityRef × MaterialRef × TextureRef)
  | [] => []
  | .add_light _ :: cs => objectsAdded cs
  | .add_object e m t :: cs => (e, m, t) :: objectsAdded cs

/-- What an `Object` refers to. -/
def Object.referents (o : Object) : EntityRef × MaterialRef × TextureRef :=
  (o.e, o.m, o.t)

/-! ## Scene: the inline `render` overloads -/

/-- The declarations of `geom.h` and `images.h` that the inline `render`
overloads use: the types `Point3D`, `Vector3D`, `Ray3D`, `Image`, the
constructor `Point3D (x, y, z)` and the two constructors `Ray3D (Point3D,
Point3D)` and `Ray3D (Point3D, Vector3D)`. -/
structure Geometry where
  Point3D : Type
  Vector3D : Type
  Ray3D : Type
  Image : Type
  point : real → real → real → Point3D
  ray_to : Point3D → Point3D → Ray3D
  ray_along : Point3D → Vector3D → Ray3D

/-- The type of the core method `void render (const Ray3D &camera, Image &m,
int max_ref = 5) const`, which `scene.h` declares and does not define. It is
run on a scene, a camera ray, an image and a depth budget and leaves a scene
and an image behind. -/
abbrev RenderCore (G : Geometry) := Scene → G.Ray3D → G.Image → Int → Scene × G.Image

/-- The overload `render (const Point3D &camera, Image &m, int max_ref = 5)`:
`Point3D dest (0, 0, 0); Ray3D camera_dir (camera, dest);
render (camera_dir, m, max_ref);`. -/
def Scene.render (G : Geometry) (core : RenderCore G) (self : Scene)
    (camera : G.Point3D) (m : G.Image) (max_ref : Option Int) : Scene × G.Image :=
  let dest := G.point 0 0 0
  let camera_dir := G.ray_to camera dest
  core self camera_dir m (max_ref.getD 5)

/-- The overload `render (const Point3D &camera, const Vector3D &dir, Image &m,
int max_ref = 5)`: `Ray3D camera_dir (camera, dir);
render (camera_dir, m, max_ref);`. -/
def Scene.render_dir (G : Geometry) (core : RenderCore G) (self : Scene)
    (camera : G.Point3D) (dir : G.Vector3D) (m : G.Image) (max_ref : Option Int) :
    Scene × G.Image :=
  let camera_dir := G.ray_along camera dir
  core self camera_dir m (max_ref.getD 5)

/-- A geometry of coordinate triples, used to run the overloads on concrete
data: a ray is its two end points or its origin and direction, an image is a
list of written pixels. -/
def gridGeometry : Geometry :=
  { Point3D := real × real × real
    Vector3D := real × real × real
    Ray3D := (real × real × real) × (real × real × real)
    Image := List Nat
    point := fun x y z => (x, y, z)
    ray_to := fun c d => (c, d)
    ray_along := fun c v => (c, v) }

/-- A core renderer on `gridGeometry` that writes the depth budget into the
image and leaves the scene alone. -/
def gridCore : RenderCore gridGeometry :=
  fun s _ m n => (s, n.toNat :: m)

/-- A scene with one light and one object, used to run the overloads. -/
def sampleScene : Scene :=
  (Scene.new (some (1 / 10))).build [.add_light ⟨7⟩, .add_object ⟨1⟩ ⟨2⟩ ⟨3⟩]

/-! ## Scene: `trace` -/

/-- The declaration `Color trace (const Ray3D &r, int max_ref, real ior,
Color strength = colors::white, real absorbance = 0.0) const`: a call that
omits `strength` or `absorbance` runs the definition of the method, `body`,
with the default of the declaration in its place. `white` is `colors::white`. -/
def Scene.trace_call {Ray3D Color Result : Type} (white : Color)
    (body : Ray3D → Int → real → Color → real → Result)
    (r : Ray3D) (max_ref : Int) (ior : real)
    (strength : Option Color) (absorbance : Option real) : Result :=
  body r max_ref ior (strength.getD white) (absorbance.getD 0)

/-- Modelled from the spec: the external collaborators of `Scene::trace` and of
the two searches it runs (§6 and §4.1 to §4.3 of the specification), whose
definitions are in `geom.h`, `light.h`, `texture.h` and the implementation file
of the scene. Colours, rays and intersection records are kept abstract. -/
structure Collaborators (Ray3D NormRay3D Intersection Color : Type) where
  /-- The virtual `Entity::intersect`. -/
  entity : EntityIntersect Intersection
  /-- The referent of a material reference. -/
  material : MaterialRef → Material
  /-- The texture lookup, colour at the hit point. -/
  colorAt : TextureRef → Intersection → Color
  /-- The fresh intersection record of a ray. -/
  record : Ray3D → Intersection
  /-- The fresh intersection record of a normalised (shadow) ray. -/
  shadow_record : NormRay3D → Intersection
  /-- The parametric distance of a recorded hit. -/
  distance : Intersection → real
  /-- The bias below which a hit counts as self-intersection. -/
  epsilon : real
  /-- The distance from the origin of a shadow ray to its light. -/
  reach : NormRay3D → real
  /-- The normalised ray from a hit point toward a light. -/
  toward : LightRef → Intersection → NormRay3D
  /-- The diffuse plus specular term of one visible light. -/
  direct : LightRef → Material → Color → Ray3D → Intersection → Color
  /-- The mirror-reflected ray `D - 2(D·N)N` at a hit. -/
  reflect : Ray3D → Intersection → Ray3D
  /-- The transmitted ray by the law of Snell from the current to the new index
  of refraction; `none` is total internal reflection. -/
  refract : Ray3D → Intersection → real → real → Option Ray3D
  /-- The distance travelled inside the material. -/
  inside : Ray3D → Intersection → real
  /-- The attenuation `exp (-absorbance)` applied to a colour. -/
  attenuate : real → Color → Color
  black : Color
  background : Color
  add : Color → Color → Color
  mul : Color → Color → Color
  scale : real → Color → Color

section Trace

variable {Ray3D NormRay3D Intersection Color : Type}

/-- Modelled from the spec: `Scene::compute_intersection` (§4.1), declared in
`scene.h` and defined elsewhere. A linear scan over all objects that delegates
the geometric test to `Object::intersect` and retains the hit of minimum
distance among those beyond the bias; on equal distances the first found wins. -/
def Scene.compute_intersection (W : Collaborators Ray3D NormRay3D Intersection Color)
    (self : Scene) (i : Intersection) : Option (Object × Intersection) :=
  self.objects.foldl
    (fun best o =>
      match o.intersect W.entity i with
      | (true, hit) =>
        if W.epsilon < W.distance hit then
          match best with
          | none => some (o, hit)
          | some (b, bhit) =>
            if W.distance hit < W.distance bhit then some (o, hit) else some (b, bhit)
        else best
      | (false, _) => best)
    none

/-- Modelled from the spec: `Scene::find_an_intersection` (§4.2), declared in
`scene.h` and defined elsewhere. Whether some object that casts shadows is hit
by the shadow ray beyond the bias and before the light. -/
def Scene.find_an_intersection (W : Collaborators Ray3D NormRay3D Intersection Color)
    (self : Scene) (r : NormRay3D) : Bool :=
  self.objects.any fun o =>
    o.have_shadows &&
      (match o.intersect W.entity (W.shadow_record r) with
       | (true, hit) =>
         decide (W.epsilon < W.distance hit) && decide (W.distance hit < W.reach r)
       | (false, _) => false)

/-- Modelled from the spec: the local illumination of step 3 of §4.3, part of
the definition of `Scene::trace`. The ambient term `Scene.ambient *
material.ambient * surface_color` plus the direct term of every light that is
not occluded from the hit point. -/
def Scene.local_illumination (W : Collaborators Ray3D NormRay3D Intersection Color)
    (self : Scene) (r : Ray3D) (o : Object) (i : Intersection) : Color :=
  let m := W.material o.m
  let surface := W.colorAt o.t i
  self.lights.foldl
    (fun sum l =>
      if self.find_an_intersection W (W.toward l i) then sum
      else W.add sum (W.direct l m surface r i))
    (W.scale (self.ambient * m.ambient) surface)

/-- Modelled from the spec: the definition of `Scene::trace` (§4.3), which
`scene.h` declares and does not define. The first argument is the number of
nested activations of `trace` that the call stack may still hold: an activation
that finds none left gives `none`, and a result `some c` is the colour returned
by a call whose recursion never went deeper than that.

1. No hit: the background colour scaled by `strength`.
2. and 3. On a hit, the local illumination of the hit object.
4. If `max_ref > 0` and `material.reflective > 0`: recurse on the reflected ray
   with `max_ref - 1`, capped by the material's own `max_ref`, with
   `strength * material.reflective` and the same `ior` and `absorbance`.
5. If `max_ref > 0` and `material.refractive > 0`: on total internal reflection
   recurse on the reflected ray as in 4 with the refractive weight; otherwise
   recurse on the transmitted ray with `max_ref - 1`, `strength *
   material.refractive`, the material's `ior` and the absorbance increased by
   `material.absorbance` times the distance travelled inside, and attenuate the
   result.
6. The sum of the local illumination pre-multiplied by `strength` and the two
   recursive contributions. -/
def Scene.trace (W : Collaborators Ray3D NormRay3D Intersection Color) (self : Scene) :
    Nat → Ray3D → Int → real → Color → real → Option Color
  | 0, _, _, _, _, _ => none
  | frames + 1, r, max_ref, ior, strength, absorbance =>
    match self.compute_intersection W (W.record r) with
    | none => some (W.mul strength W.background)
    | some (o, i) =>
      let m := W.material o.m
      let lit := self.local_illumination W r o i
      let reflected : Option Color :=
        if 0 < max_ref ∧ 0 < m.reflective then
          self.trace W frames (W.reflect r i) (min (max_ref - 1) m.max_ref) ior
            (W.scale m.reflective strength) absorbance
        else some W.black
      let refracted : Option Color :=
        if 0 < max_ref ∧ 0 < m.refractive then
          match W.refract r i ior m.ior with
          | none =>
            self.trace W frames (W.reflect r i) (max_ref - 1) ior
              (W.scale m.refractive strength) absorbance
          | some t =>
            let total := absorbance + m.absorbance * W.inside r i
            (self.trace W frames t (max_ref - 1) m.ior
              (W.scale m.refractive strength) total).map (W.attenuate total)
        else some W.black
      match reflected, refracted with
      | some c₁, some c₂ => some (W.add (W.mul strength lit) (W.add c₁ c₂))
      | _, _ => none

end Trace

/-- A hall of mirrors, used to run `trace` on concrete data: rays, shadow rays
and intersection records carry no information, a colour is one rational
intensity, every entity is hit at distance 1 by every ray, and every material
is a perfect mirror. -/
def mirrorWorld : Collaborators Unit Unit Unit real :=
  { entity := fun _ i _ => (true, i)
    material := fun _ => Material.construct none none none (some 1) none none none none none
    colorAt := fun _ _ => 1
    record := fun _ => ()
    shadow_record := fun _ => ()
    distance := fun _ => 1
    epsilon := 0
    reach := fun _ => 2
    toward := fun _ _ => ()
    direct := fun _ _ _ _ _ => 1
    reflect := fun r _ => r
    refract := fun _ _ _ _ => none
    inside := fun _ _ => 0
    attenuate := fun _ c => c
    black := 0
    background := 0
    add := fun a b => a + b
    mul := fun a b => a * b
    scale := fun q c => q * c }

/-! ## Properties of `Material` -/

/-- C10: the constructor of `Material` stores each positional argument in the
field of the same name, whatever the declaration order of the fields; the
fourth argument is the mirror weight `reflective`, the eighth the exponent
`reflectivity`. -/
theorem Material.new_fields (a1 a2 a3 a4 a5 a6 a7 : real) (a8 a9 : Int) :
    (Material.new a1 a2 a3 a4 a5 a6 a7 a8 a9).ambient = a1 ∧
    (Material.new a1 a2 a3 a4 a5 a6 a7 a8 a9).diffuse = a2 ∧
    (Material.new a1 a2 a3 a4 a5 a6 a7 a8 a9).specular = a3 ∧
    (Material.new a1 a2 a3 a4 a5 a6 a7 a8 a9).reflective = a4 ∧
    (Material.new a1 a2 a3 a4 a5 a6 a7 a8 a9).refractive = a5 ∧
    (Material.new a1 a2 a3 a4 a5 a6 a7 a8 a9).ior = a6 ∧
    (Material.new a1 a2 a3 a4 a5 a6 a7 a8 a9).absorbance = a7 ∧
    (Material.new a1 a2 a3 a4 a5 a6 a7 a8 a9).reflectivity = a8 ∧
    (Material.new a1 a2 a3 a4 a5 a6 a7 a8 a9).max_ref = a9 :=
  ⟨rfl, rfl, rfl, rfl, rfl, rfl, rfl, rfl, rfl⟩

/-- C2, as stated, fails: the material constructed with first argument `-1`
and the other arguments omitted has a negative `ambient`, so its weight-like
fields are not all non-negative. -/
theorem Material.negative_weight_constructible :
    ¬ (0 ≤ (Material.construct (some (-1)) none none none none none none none none).ambient ∧
       0 ≤ (Material.construct (some (-1)) none none none none none none none none).diffuse ∧
       0 ≤ (Material.construct (some (-1)) none none none none none none none none).specular ∧
       0 ≤ (Material.construct (some (-1)) none none none none none none none none).reflective ∧
       0 ≤ (Material.construct (some (-1)) none none none none none none none none).refractive ∧
       0 ≤ (Material.construct (some (-1)) none none none none none none none none).absorbance) := by
  intro h
  have h1 := h.1
  simp [Material.construct, Material.new] at h1
  norm_num at h1

/-- C2, amended: the constructor copies its arguments without validating them,
so the weight-like fields of the constructed material are all non-negative
exactly when the weight arguments are. -/
theorem Material.weights_nonneg_iff (ambient_ diffuse_ specular_ reflective_ refractive_
    ior_ absorbance_ : real) (reflectivity_ max_ref_ : Int) :
    (0 ≤ (Material.new ambient_ diffuse_ specular_ reflective_ refractive_ ior_
            absorbance_ reflectivity_ max_ref_).ambient ∧
     0 ≤ (Material.new ambient_ diffuse_ specular_ reflective_ refractive_ ior_
            absorbance_ reflectivity_ max_ref_).diffuse ∧
     0 ≤ (Material.new ambient_ diffuse_ specular_ reflective_ refractive_ ior_
            absorbance_ reflectivity_ max_ref_).specular ∧
     0 ≤ (Material.new ambient_ diffuse_ specular_ reflective_ refractive_ ior_
            absorbance_ reflectivity_ max_ref_).reflective ∧
     0 ≤ (Material.new ambient_ diffuse_ specular_ reflective_ refractive_ ior_
            absorbance_ reflectivity_ max_ref_).refractive ∧
     0 ≤ (Material.new ambient_ diffuse_ specular_ reflective_ refractive_ ior_
            absorbance_ reflectivity_ max_ref_).absorbance) ↔
    (0 ≤ ambient_ ∧ 0 ≤ diffuse_ ∧ 0 ≤ specular_ ∧ 0 ≤ reflective_ ∧ 0 ≤ refractive_ ∧
      0 ≤ absorbance_) :=
  Iff.rfl

/-- C7: the material built with no arguments has `ambient = 0`, `diffuse = 1`,
`specular = 0`, `reflective = 0`, `refractive = 0`, `absorbance = 3/20`, each in
the closed interval from 0 to 1, `ior = 1 > 0`, and the positive integers
`reflectivity = 20` and `max_ref = 5`. -/
theorem Material.default_in_range :
    (Material.default.ambient = 0 ∧ Material.default.diffuse = 1 ∧
      Material.default.specular = 0 ∧ Material.default.reflective = 0 ∧
      Material.default.refractive = 0 ∧ Material.default.absorbance = 3 / 20) ∧
    (0 ≤ Material.default.ambient ∧ Material.default.ambient ≤ 1) ∧
    (0 ≤ Material.default.diffuse ∧ Material.default.diffuse ≤ 1) ∧
    (0 ≤ Material.default.specular ∧ Material.default.specular ≤ 1) ∧
    (0 ≤ Material.default.reflective ∧ Material.default.reflective ≤ 1) ∧
    (0 ≤ Material.default.refractive ∧ Material.default.refractive ≤ 1) ∧
    (0 ≤ Material.default.absorbance ∧ Material.default.absorbance ≤ 1) ∧
    (Material.default.ior = 1 ∧ 0 < Material.default.ior) ∧
    (Material.default.reflectivity = 20 ∧ 0 < Material.default.reflectivity) ∧
    (Material.default.max_ref = 5 ∧ 0 < Material.default.max_ref) := by
  simp only [Material.default, Material.construct, Material.new, Option.getD_none]
  norm_num

/-! ## Properties of `Object` -/

/-- C3: `Object::intersect` returns the result, and leaves the record as
updated, of the intersect method of the object's own entity, called on the same
record with the object itself as context; nothing depends on the material or on
the shadow flag other than through that call. -/
theorem Object.intersect_delegates {Intersection : Type}
    (entity : EntityIntersect Intersection) (o : Object) (i : Intersection) :
    (o.intersect entity i).1 = (entity o.e i o).1 ∧
    (o.intersect entity i).2 = (entity o.e i o).2 :=
  ⟨rfl, rfl⟩

/-! ## Properties of scene construction -/

/-- No call leaves the scene as it is. -/
theorem Scene.build_nil (s : Scene) : s.build [] = s := rfl

/-- A sequence of calls performs its first call first. -/
theorem Scene.build_cons (s : Scene) (c : BuildCall) (cs : List BuildCall) :
    s.build (c :: cs) = (s.call c).build cs := rfl

/-- Two sequences of calls in a row are one sequence. -/
theorem Scene.build_append (s : Scene) (cs ds : List BuildCall) :
    s.build (cs ++ ds) = (s.build cs).build ds := by
  simp [Scene.build, List.foldl_append]

/-- Building on any scene appends the added lights to its lights. -/
theorem Scene.build_lights (s : Scene) (cs : List BuildCall) :
    (s.build cs).lights = s.lights ++ lightsAdded cs := by
  induction cs generalizing s with
  | nil => simp [Scene.build_nil, lightsAdded]
  | cons c cs ih =>
    rw [Scene.build_cons, ih]
    cases c <;> simp [Scene.call, Scene.add_light, Scene.add_object, lightsAdded]

/-- Building on any scene appends one default-flagged object per `add_object`
call to its objects. -/
theorem Scene.build_objects (s : Scene) (cs : List BuildCall) :
    (s.build cs).objects =
      s.objects ++ (objectsAdded cs).map fun x => Object.new x.1 x.2.1 x.2.2 none := by
  induction cs generalizing s with
  | nil => simp [Scene.build_nil, objectsAdded]
  | cons c cs ih =>
    rw [Scene.build_cons, ih]
    cases c <;> simp [Scene.call, Scene.add_light, Scene.add_object, objectsAdded]

/-- Building never touches the ambient term. -/
theorem Scene.build_ambient (s : Scene) (cs : List BuildCall) :
    (s.build cs).ambient = s.ambient := by
  induction cs generalizing s with
  | nil => rfl
  | cons c cs ih =>
    rw [Scene.build_cons, ih]
    cases c <;> rfl

/-- C1: after any finite sequence of `add_light` and `add_object` calls on a
freshly constructed scene, the lights are exactly the lights added, in call
order, and the objects refer, one per `add_object` call and in call order, to
the entity, material and texture of that call; whatever calls follow, the
entries already present stay in place as an initial segment; and every single
call lengthens exactly one of the two collections by one and leaves the other
collection as it was. -/
theorem Scene.build_collections (ambient_ : Option real) (calls : List BuildCall) :
    ((Scene.new ambient_).build calls).lights = lightsAdded calls ∧
    ((Scene.new ambient_).build calls).objects.map Object.referents = objectsAdded calls ∧
    ((Scene.new ambient_).build calls).lights.length = (lightsAdded calls).length ∧
    ((Scene.new ambient_).build calls).objects.length = (objectsAdded calls).length ∧
    (∀ more : List BuildCall,
      ((Scene.new ambient_).build calls).lights <+:
          ((Scene.new ambient_).build (calls ++ more)).lights ∧
      ((Scene.new ambient_).build calls).objects <+:
          ((Scene.new ambient_).build (calls ++ more)).objects) ∧
    (∀ c : BuildCall,
      ((((Scene.new ambient_).build calls).call c).lights.length =
            ((Scene.new ambient_).build calls).lights.length + 1 ∧
          (((Scene.new ambient_).build calls).call c).lights =
            ((Scene.new ambient_).build calls).lights ++ lightsAdded [c] ∧
          (((Scene.new ambient_).build calls).call c).objects =
            ((Scene.new ambient_).build calls).objects) ∨
      ((((Scene.new ambient_).build calls).call c).objects.length =
            ((Scene.new ambient_).build calls).objects.length + 1 ∧
          ((((Scene.new ambient_).build calls).call c).objects.map Object.referents =
            ((Scene.new ambient_).build calls).objects.map Object.referents ++
              objectsAdded [c]) ∧
          (((Scene.new ambient_).build calls).call c).lights =
            ((Scene.new ambient_).build calls).lights)) := by
  have hl : ((Scene.new ambient_).build calls).lights = lightsAdded calls := by
    simp [Scene.build_lights, Scene.new]
  have ho : ((Scene.new ambient_).build calls).objects.map Object.referents
      = objectsAdded calls := by
    simp [Scene.build_objects, Scene.new, Object.referents, Object.new, Function.comp_def]
  refine ⟨hl, ho, by rw [hl], ?_, ?_, ?_⟩
  · rw [← ho, List.length_map]
  · intro more
    rw [Scene.build_append, Scene.build_lights _ more, Scene.build_objects _ more]
    exact ⟨List.prefix_append _ _, List.prefix_append _ _⟩
  · intro c
    cases c with
    | add_light l =>
      left
      simp [Scene.call, Scene.add_light, lightsAdded]
    | add_object e m t =>
      right
      simp [Scene.call, Scene.add_object, objectsAdded, Object.referents, Object.new]

/-- C8: every object of a scene built from a fresh scene by `add_light` and
`add_object` calls casts shadows. -/
theorem Scene.build_have_shadows (ambient_ : Option real) (calls : List BuildCall)
    (o : Object) (h : o ∈ ((Scene.new ambient_).build calls).objects) :
    o.have_shadows = true := by
  rw [Scene.build_objects] at h
  simp only [Scene.new, List.nil_append, List.mem_map] at h
  obtain ⟨x, -, rfl⟩ := h
  rfl

/-- C8 on a concrete scene: one light, then one object. -/
theorem Scene.build_have_shadows_witness :
    (Object.mk ⟨1⟩ ⟨2⟩ ⟨3⟩ true) ∈
        ((Scene.new none).build [.add_light ⟨7⟩, .add_object ⟨1⟩ ⟨2⟩ ⟨3⟩]).objects ∧
      (Object.mk ⟨1⟩ ⟨2⟩ ⟨3⟩ true).have_shadows = true :=
  ⟨by decide, Scene.build_have_shadows none [.add_light ⟨7⟩, .add_object ⟨1⟩ ⟨2⟩ ⟨3⟩]
    (Object.mk ⟨1⟩ ⟨2⟩ ⟨3⟩ true) (by decide)⟩

/-! ## Properties of the `render` overloads -/

/-- C9: rendering from a camera point is the core renderer applied to the ray
constructed from that point and the point `(0, 0, 0)`, with the same image and
the same depth budget, which is 5 when omitted. -/
theorem Scene.render_eq_core (G : Geometry) (core : RenderCore G) (s : Scene)
    (c : G.Point3D) (m : G.Image) (n : Int) :
    s.render G core c m (some n) = core s (G.ray_to c (G.point 0 0 0)) m n ∧
    s.render G core c m none = core s (G.ray_to c (G.point 0 0 0)) m 5 :=
  ⟨rfl, rfl⟩

/-- C5: if the core renderer leaves the scene as it found it, so do both inline
overloads: the lights, the objects and the ambient term after the call are those
before it. -/
theorem Scene.render_frame (G : Geometry) (core : RenderCore G)
    (hcore : ∀ s r m n, (core s r m n).1 = s)
    (s : Scene) (c : G.Point3D) (dir : G.Vector3D) (m : G.Image) (n : Option Int) :
    ((s.render G core c m n).1.lights = s.lights ∧
      (s.render G core c m n).1.objects = s.objects ∧
      (s.render G core c m n).1.ambient = s.ambient) ∧
    ((s.render_dir G core c dir m n).1.lights = s.lights ∧
      (s.render_dir G core c dir m n).1.objects = s.objects ∧
      (s.render_dir G core c dir m n).1.ambient = s.ambient) := by
  have h1 : (s.render G core c m n).1 = s := hcore _ _ _ _
  have h2 : (s.render_dir G core c dir m n).1 = s := hcore _ _ _ _
  rw [h1, h2]
  exact ⟨⟨rfl, rfl, rfl⟩, rfl, rfl, rfl⟩

/-- C5 on concrete data: `gridCore` leaves the scene alone, and so do both
overloads run on `sampleScene`. -/
theorem Scene.render_frame_witness :
    (∀ s r m n, (gridCore s r m n).1 = s) ∧
    (((sampleScene.render gridGeometry gridCore (1, 2, 3) [] none).1.lights
          = sampleScene.lights ∧
        (sampleScene.render gridGeometry gridCore (1, 2, 3) [] none).1.objects
          = sampleScene.objects ∧
        (sampleScene.render gridGeometry gridCore (1, 2, 3) [] none).1.ambient
          = sampleScene.ambient) ∧
      ((sampleScene.render_dir gridGeometry gridCore (1, 2, 3) (0, 0, -1) [] none).1.lights
          = sampleScene.lights ∧
        (sampleScene.render_dir gridGeometry gridCore (1, 2, 3) (0, 0, -1) [] none).1.objects
          = sampleScene.objects ∧
        (sampleScene.render_dir gridGeometry gridCore (1, 2, 3) (0, 0, -1) [] none).1.ambient
          = sampleScene.ambient)) :=
  ⟨fun _ _ _ _ => rfl,
    Scene.render_frame gridGeometry gridCore (fun _ _ _ _ => rfl) sampleScene
      (1, 2, 3) (0, 0, -1) [] none⟩

/-! ## Properties of `trace` -/

/-- C6: a call of `trace` that supplies only the ray, the depth budget and the
index of refraction of the medium runs the method with `strength` white and
`absorbance` 0, whatever the definition of the method is. -/
theorem Scene.trace_call_defaults {Ray3D Color Result : Type} (white : Color)
    (body : Ray3D → Int → real → Color → real → Result)
    (r : Ray3D) (max_ref : Int) (ior : real) :
    Scene.trace_call white body r max_ref ior none none
        = Scene.trace_call white body r max_ref ior (some white) (some 0) ∧
    Scene.trace_call white body r max_ref ior none none = body r max_ref ior white 0 :=
  ⟨rfl, rfl⟩

section TraceProofs

variable {Ray3D NormRay3D Intersection Color : Type}

/-- A call of `trace` returns a colour as soon as the stack may hold more
activations than the depth budget (read as 0 when negative). -/
theorem Scene.trace_returns (W : Collaborators Ray3D NormRay3D Intersection Color)
    (s : Scene) (frames : Nat) :
    ∀ (r : Ray3D) (max_ref : Int) (ior : real) (strength : Color) (absorbance : real),
      max_ref.toNat < frames →
      ∃ c, s.trace W frames r max_ref ior strength absorbance = some c := by
  induction frames with
  | zero =>
    intro r max_ref ior strength absorbance h
    exact absurd h (Nat.not_lt_zero _)
  | succ frames ih =>
    intro r max_ref ior strength absorbance h
    unfold Scene.trace
    cases hsearch : s.compute_intersection W (W.record r) with
    | none => exact ⟨_, rfl⟩
    | some hit =>
      obtain ⟨o, i⟩ := hit
      have hrefl : ∃ c₁,
          (if 0 < max_ref ∧ 0 < (W.material o.m).reflective then
              s.trace W frames (W.reflect r i) (min (max_ref - 1) (W.material o.m).max_ref)
                ior (W.scale (W.material o.m).reflective strength) absorbance
            else some W.black) = some c₁ := by
        by_cases hc : 0 < max_ref ∧ 0 < (W.material o.m).reflective
        · rw [if_pos hc]
          exact ih _ _ _ _ _ (by omega)
        · rw [if_neg hc]
          exact ⟨_, rfl⟩
      have hrefr : ∃ c₂,
          (if 0 < max_ref ∧ 0 < (W.material o.m).refractive then
              match W.refract r i ior (W.material o.m).ior with
              | none =>
                s.trace W frames (W.reflect r i) (max_ref - 1) ior
                  (W.scale (W.material o.m).refractive strength) absorbance
              | some t =>
                (s.trace W frames t (max_ref - 1) (W.material o.m).ior
                  (W.scale (W.material o.m).refractive strength)
                  (absorbance + (W.material o.m).absorbance * W.inside r i)).map
                  (W.attenuate (absorbance + (W.material o.m).absorbance * W.inside r i))
            else some W.black) = some c₂ := by
        by_cases hc : 0 < max_ref ∧ 0 < (W.material o.m).refractive
        · rw [if_pos hc]
          cases W.refract r i ior (W.material o.m).ior with
          | none => exact ih _ _ _ _ _ (by omega)
          | some t =>
            obtain ⟨c, hc'⟩ := ih t (max_ref - 1) (W.material o.m).ior
              (W.scale (W.material o.m).refractive strength)
              (absorbance + (W.material o.m).absorbance * W.inside r i) (by omega)
            refine ⟨W.attenuate (absorbance + (W.material o.m).absorbance * W.inside r i) c, ?_⟩
            show Option.map _ (s.trace W frames t _ _ _ _) = _
            rw [hc']
            rfl
        · rw [if_neg hc]
          exact ⟨_, rfl⟩
      obtain ⟨c₁, h₁⟩ := hrefl
      obtain ⟨c₂, h₂⟩ := hrefr
      simp only [h₁, h₂]
      exact ⟨_, rfl⟩

/-- Room for one more activation does not change a returned colour. -/
theorem Scene.trace_frames_succ (W : Collaborators Ray3D NormRay3D Intersection Color)
    (s : Scene) (frames : Nat) :
    ∀ (r : Ray3D) (max_ref : Int) (ior : real) (strength : Color) (absorbance : real)
      (c : Color),
      s.trace W frames r max_ref ior strength absorbance = some c →
      s.trace W (frames + 1) r max_ref ior strength absorbance = some c := by
  induction frames with
  | zero =>
    intro r max_ref ior strength absorbance c h
    simp [Scene.trace] at h
  | succ frames ih =>
    intro r max_ref ior strength absorbance c h
    rw [Scene.trace] at h ⊢
    cases hsearch : s.compute_intersection W (W.record r) with
    | none => rw [hsearch] at h; exact h
    | some hit =>
      obtain ⟨o, i⟩ := hit
      rw [hsearch] at h
      simp only at h ⊢
      have hA : ∀ a,
          (if 0 < max_ref ∧ 0 < (W.material o.m).reflective then
              s.trace W frames (W.reflect r i) (min (max_ref - 1) (W.material o.m).max_ref)
                ior (W.scale (W.material o.m).reflective strength) absorbance
            else some W.black) = some a →
          (if 0 < max_ref ∧ 0 < (W.material o.m).reflective then
              s.trace W (frames + 1) (W.reflect r i) (min (max_ref - 1) (W.material o.m).max_ref)
                ior (W.scale (W.material o.m).reflective strength) absorbance
            else some W.black) = some a := by
        intro a ha
        by_cases hc : 0 < max_ref ∧ 0 < (W.material o.m).reflective
        · rw [if_pos hc] at ha ⊢
          exact ih _ _ _ _ _ _ ha
        · rw [if_neg hc] at ha ⊢
          exact ha
      have hB : ∀ b,
          (if 0 < max_ref ∧ 0 < (W.material o.m).refractive then
              match W.refract r i ior (W.material o.m).ior with
              | none =>
                s.trace W frames (W.reflect r i) (max_ref - 1) ior
                  (W.scale (W.material o.m).refractive strength) absorbance
              | some t =>
                (s.trace W frames t (max_ref - 1) (W.material o.m).ior
                  (W.scale (W.material o.m).refractive strength)
                  (absorbance + (W.material o.m).absorbance * W.inside r i)).map
                  (W.attenuate (absorbance + (W.material o.m).absorbance * W.inside r i))
            else some W.black) = some b →
          (if 0 < max_ref ∧ 0 < (W.material o.m).refractive then
              match W.refract r i ior (W.material o.m).ior with
              | none =>
                s.trace W (frames + 1) (W.reflect r i) (max_ref - 1) ior
                  (W.scale (W.material o.m).refractive strength) absorbance
              | some t =>
                (s.trace W (frames + 1) t (max_ref - 1) (W.material o.m).ior
                  (W.scale (W.material o.m).refractive strength)
                  (absorbance + (W.material o.m).absorbance * W.inside r i)).map
                  (W.attenuate (absorbance + (W.material o.m).absorbance * W.inside r i))
            else some W.black) = some b := by
        intro b hb
        by_cases hc : 0 < max_ref ∧ 0 < (W.material o.m).refractive
        · rw [if_pos hc] at hb ⊢
          cases hrefr : W.refract r i ior (W.material o.m).ior with
          | none =>
            rw [hrefr] at hb
            exact ih _ _ _ _ _ _ hb
          | some t =>
            rw [hrefr] at hb
            simp only [Option.map_eq_some'] at hb ⊢
            obtain ⟨x, hx, rfl⟩ := hb
            exact ⟨x, ih _ _ _ _ _ _ hx, rfl⟩
        · rw [if_neg hc] at hb ⊢
          exact hb
      cases hAv : (if 0 < max_ref ∧ 0 < (W.material o.m).reflective then
              s.trace W frames (W.reflect r i) (min (max_ref - 1) (W.material o.m).max_ref)
                ior (W.scale (W.material o.m).reflective strength) absorbance
            else some W.black) with
      | none => rw [hAv] at h; simp at h
      | some a =>
        cases hBv : (if 0 < max_ref ∧ 0 < (W.material o.m).refractive then
              match W.refract r i ior (W.material o.m).ior with
              | none =>
                s.trace W frames (W.reflect r i) (max_ref - 1) ior
                  (W.scale (W.material o.m).refractive strength) absorbance
              | some t =>
                (s.trace W frames t (max_ref - 1) (W.material o.m).ior
                  (W.scale (W.material o.m).refractive strength)
                  (absorbance + (W.material o.m).absorbance * W.inside r i)).map
                  (W.attenuate (absorbance + (W.material o.m).absorbance * W.inside r i))
            else some W.black) with
        | none => rw [hAv, hBv] at h; simp at h
        | some b =>
          rw [hAv, hBv] at h
          rw [hA a hAv, hB b hBv]
          exact h

/-- Room for any number of further activations does not change a returned
colour. -/
theorem Scene.trace_frames_add (W : Collaborators Ray3D NormRay3D Intersection Color)
    (s : Scene) (frames : Nat) (r : Ray3D) (max_ref : Int) (ior : real) (strength : Color)
    (absorbance : real) (c : Color)
    (h : s.trace W frames r max_ref ior strength absorbance = some c) (extra : Nat) :
    s.trace W (frames + extra) r max_ref ior strength absorbance = some c := by
  induction extra with
  | zero => exact h
  | succ extra ih => exact Scene.trace_frames_succ W s _ _ _ _ _ _ _ ih

/-- C4: for every scene, ray, material configuration and depth budget
`max_ref`, `trace` returns a colour once the stack may hold `max_ref + 1`
activations (one, when `max_ref` is 0 or negative), so its recursion is never
deeper than `max_ref`; more room on the stack gives the same colour. -/
theorem Scene.trace_terminates (W : Collaborators Ray3D NormRay3D Intersection Color)
    (s : Scene) (r : Ray3D) (max_ref : Int) (ior : real) (strength : Color)
    (absorbance : real) :
    ∃ c, ∀ extra : Nat,
      s.trace W (max_ref.toNat + 1 + extra) r max_ref ior strength absorbance = some c := by
  obtain ⟨c, hc⟩ := Scene.trace_returns W s (max_ref.toNat + 1) r max_ref ior strength
    absorbance (Nat.lt_succ_self _)
  exact ⟨c, fun extra => Scene.trace_frames_add W s _ r max_ref ior strength absorbance c hc extra⟩

/-- In the hall of mirrors a call with depth budget 1 needs two activations:
with room for one the reflected call cannot be made, with room for two it
returns. The recursion of `trace` is real, and the bound of `max_ref + 1`
activations is attained. -/
theorem Scene.trace_mirror_depth :
    sampleScene.trace mirrorWorld 1 () 1 1 1 0 = none ∧
    (sampleScene.trace mirrorWorld 2 () 1 1 1 0).isSome = true ∧
    (sampleScene.trace mirrorWorld 1 () 0 1 1 0).isSome = true := by
  decide

end TraceProofs

end Ray
